import Mathlib

/-!
Verification of the contact-management web API (FastAPI + SQLAlchemy + Redis).

This file shallowly embeds the authentication, caching and contact-query
logic of the repository and proves the specification claims about it.

Modelling conventions:
* JWTs are symbolic values remembering their payload and signing secret.
  `jwt.encode` with HS256 is deterministic and injective on
  (payload, secret), so comparing tokens as values is faithful to
  comparing their encoded strings (as the refresh-token database match
  does).
* Timestamps are integers (seconds).  `jwt.decode` of python-jose rejects
  a token whose `exp` is strictly in the past, so a token is alive iff
  `now ≤ exp`.
* The users table and the contacts table are lists of records; SQLAlchemy
  `scalar_one_or_none` over a unique-column filter is `List.find?`.
* The Redis cache is an association list from string keys to cached user
  snapshots; `redis_service.set/get/delete` become `cacheInsert`,
  `cacheGet`, `cacheRemove`.
* Handlers that write are embedded as functions returning their result
  together with the ordered list of side effects (database commits and
  cache writes) they perform, in source order.
* bcrypt hashing (`Hash.get_password_hash` / `Hash.verify_password`) is
  salted and non-deterministic, so it is modelled by parameters
  `hashF : String → String` and `verifyF : String → String → Bool`
  together with the library contract `verifyF pw (hashF pw) = true`
  where a proof needs it.
-/

/-- JWT claim set.  A field is `none` when the claim is absent from the
payload dictionary.  `sub : Option (Option String)` distinguishes an
absent `"sub"` key (`none`) from a present `"sub": null` (`some none`),
because `payload["sub"]` and `payload.get("sub")` treat them
differently in the source. -/
structure Payload where
  sub : Option (Option String)
  token_type : Option String
  email : Option String
  salt : Option String
  exp : Int
  iat : Option Int
deriving DecidableEq, Repr

/-- A presented bearer token: either a structurally malformed string or a
well-formed JWT signed with some secret. -/
inductive Token where
  | malformed (raw : String)
  | signed (payload : Payload) (secret : String)
deriving DecidableEq, Repr

/-- Embeds `jose.jwt.decode(token, secret, algorithms=[alg])`: succeeds
iff the token is well formed, its signature verifies under `secret`, and
its `exp` claim is not in the past (python-jose raises
`ExpiredSignatureError` when `exp < now`). -/
def jwtDecode (t : Token) (secret : String) (now : Int) : Option Payload :=
  match t with
  | .malformed _ => none
  | .signed p s => if s == secret && now ≤ p.exp then some p else none

/-- Embeds `create_token` (src/services/auth.py): copies the data
(`{"sub": sub}` at every call site) and adds `exp = now + expires_delta`,
`iat = now` and the `token_type` discriminator. -/
def create_token (sub : String) (token_type : String) (now expires_delta : Int)
    (secret : String) : Token :=
  .signed ⟨some (some sub), some token_type, none, none, now + expires_delta, some now⟩ secret

/-- Embeds `create_access_token` on the default-expiry path
(`JWT_EXPIRATION_SECONDS`). -/
def create_access_token (sub : String) (now accessExp : Int) (secret : String) : Token :=
  create_token sub "access" now accessExp secret

/-- Embeds `create_refresh_token` on the default-expiry path
(`JWT_REFRESH_EXPIRATION_SECONDS`). -/
def create_refresh_token (sub : String) (now refreshExp : Int) (secret : String) : Token :=
  create_token sub "refresh" now refreshExp secret

/-- Embeds `create_password_reset_token` (src/services/auth.py): payload
holds the target email, a random salt, the `password_reset` discriminator
and a one-hour expiry; no `iat` and no `sub`. -/
def create_password_reset_token (email salt : String) (now : Int) (secret : String) : Token :=
  .signed ⟨none, some "password_reset", some email, some salt, now + 3600, none⟩ secret

/-- A row of the `users` table (src/db/models/user.py).  `created_at` is
kept as its ISO string since the code only round-trips it through the
cache.  `role : Option String` models the Python attribute: a row loaded
from the database always carries a role (column default `"user"`), but a
`User(...)` instance built in memory without the `role` keyword — as the
cache-hit path of `get_current_user` does — has `role = None`, because
SQLAlchemy column defaults apply at INSERT, not at instantiation. -/
structure UserRec where
  id : Nat
  username : String
  email : String
  hashed_password : String
  created_at : String
  avatar : Option String
  refresh_token : Option Token
  role : Option String
deriving DecidableEq, Repr

/-- Embeds `User.is_admin` (src/db/models/user.py): `role == UserRole.ADMIN`,
where `UserRole.ADMIN` is the string `"admin"`. -/
def is_admin (u : UserRec) : Bool :=
  u.role == some "admin"

/-- The users table. -/
abbrev Db := List UserRec

/-- Embeds `UserRepository.get_user_by_username`:
`select(User).filter_by(username=...)` + `scalar_one_or_none`. -/
def get_user_by_username (db : Db) (username : String) : Option UserRec :=
  db.find? (fun r => r.username == username)

/-- Embeds `UserRepository.get_user_by_email`. -/
def get_user_by_email (db : Db) (email : String) : Option UserRec :=
  db.find? (fun r => r.email == email)

/-- Embeds `UserRepository.get_user_by_id`. -/
def get_user_by_id (db : Db) (user_id : Nat) : Option UserRec :=
  db.find? (fun r => r.id == user_id)

/-- Embeds `UserRepository.get_user_by_username_and_token`:
`select(User).filter_by(username=..., refresh_token=token)`. -/
def get_user_by_username_and_token (db : Db) (username : String) (token : Token) :
    Option UserRec :=
  db.find? (fun r => r.username == username && r.refresh_token == some token)

/-- Embeds `UserRepository.save_refresh_token`: look the user up by
username; if present overwrite the `refresh_token` column and commit.
Returns the new table and the updated row (`None` when the user is
absent). -/
def save_refresh_token (db : Db) (username : String) (rt : Option Token) :
    Db × Option UserRec :=
  match db.find? (fun r => r.username == username) with
  | none => (db, none)
  | some u =>
      (db.map (fun r => if r.username == username then { r with refresh_token := rt } else r),
       some { u with refresh_token := rt })

/-- A row of the `contacts` table (src/db/models/contact.py);
`date_of_birth` is a day number. -/
structure ContactRec where
  id : Nat
  first_name : String
  last_name : String
  phone : String
  email : String
  date_of_birth : Int
  user_id : Nat
deriving DecidableEq, Repr

/-- The contacts table. -/
abbrev ContactDb := List ContactRec

/-- SQL `column.contains(q)` (LIKE with wildcards on both sides):
`q` occurs as a contiguous substring of `s`. -/
def strContains (s q : String) : Bool :=
  (List.range (s.length + 1)).any (fun i => (s.data.drop i).take q.length == q.data)

/-- Embeds `ContactRepository.get_contacts`: filter by owning user id,
optionally filter by the search string over first name, last name and
email (the `if q:` guard skips the filter when `q` is `None` or empty),
then apply offset and limit. -/
def get_contacts (cdb : ContactDb) (user : UserRec) (skip limit : Nat)
    (q : Option String) : List ContactRec :=
  let base := cdb.filter (fun c => c.user_id == user.id)
  let filtered :=
    match q with
    | some qs =>
        if qs.length > 0 then
          base.filter (fun (c : ContactRec) =>
            strContains c.first_name qs || strContains c.last_name qs ||
              strContains c.email qs)
        else base
    | none => base
  (filtered.drop skip).take limit

/-- Embeds `ContactRepository.get_contact`:
`select(Contact).where(Contact.id == contact_id, Contact.user_id == user.id)`. -/
def get_contact (cdb : ContactDb) (contact_id : Nat) (user : UserRec) :
    Option ContactRec :=
  cdb.find? (fun c => c.id == contact_id && c.user_id == user.id)

/-- Embeds `ContactRepository.get_birthdays`: contacts of the user whose
`date_of_birth` lies BETWEEN `current_date` and `current_date + days`
(SQL BETWEEN is inclusive at both endpoints). -/
def get_birthdays (cdb : ContactDb) (days : Int) (user : UserRec) (today : Int) :
    List ContactRec :=
  cdb.filter (fun c =>
    c.user_id == user.id && today ≤ c.date_of_birth && c.date_of_birth ≤ today + days)

/-- Embeds the `upcoming_birthdays` route (src/api/contacts.py): the
`days` query parameter is validated with `ge=1, le=365` before the
handler runs (`none` models the 422 rejection). -/
def upcoming_birthdays (cdb : ContactDb) (days : Int) (user : UserRec) (today : Int) :
    Option (List ContactRec) :=
  if 1 ≤ days ∧ days ≤ 365 then some (get_birthdays cdb days user today) else none

/-- The user snapshot that `login` serializes into Redis
(src/api/auth.py, the `user_dict` literal).  Its fields are exactly the
seven keys that dictionary carries: id, username, email, hashed_password,
created_at, avatar, refresh_token — and no role. -/
structure CachedUser where
  id : Nat
  username : String
  email : String
  hashed_password : String
  created_at : String
  avatar : Option String
  refresh_token : Option Token
deriving DecidableEq, Repr

/-- The Redis cache: an association list from keys to cached snapshots. -/
abbrev Cache := List (String × CachedUser)

/-- Embeds `redis_service.get`. -/
def cacheGet (c : Cache) (k : String) : Option CachedUser :=
  (c.find? (fun e => e.1 == k)).map (fun e => e.2)

/-- Embeds `redis_service.set`. -/
def cacheInsert (c : Cache) (k : String) (v : CachedUser) : Cache :=
  (k, v) :: c.filter (fun e => e.1 != k)

/-- Embeds `redis_service.delete`. -/
def cacheRemove (c : Cache) (k : String) : Cache :=
  c.filter (fun e => e.1 != k)

/-- A side effect performed by a handler, in source order: a database
commit (carrying the table state it commits), a cache write, or a cache
invalidation. -/
inductive Effect where
  | dbCommit (db : Db)
  | cacheSet (key : String) (value : CachedUser)
  | cacheDelete (key : String)
deriving DecidableEq, Repr

/-- Applies one effect to the combined database/cache state. -/
def applyEffect (s : Db × Cache) (e : Effect) : Db × Cache :=
  match e with
  | .dbCommit db => (db, s.2)
  | .cacheSet k v => (s.1, cacheInsert s.2 k v)
  | .cacheDelete k => (s.1, cacheRemove s.2 k)

/-- Applies a handler's effects left to right. -/
def applyEffects (s : Db × Cache) (es : List Effect) : Db × Cache :=
  es.foldl applyEffect s

/-- Embeds `UserService.verify_refresh_token` (src/services/user.py):
decode the token; read `sub` and `token_type` with `.get` (absent and
null both give `None`); reject unless a subject is present and
`token_type == "refresh"`; otherwise return the row matching both the
username and the presented token string. -/
def verify_refresh_token (db : Db) (secret : String) (now : Int) (t : Token) :
    Option UserRec :=
  match jwtDecode t secret now with
  | none => none
  | some p =>
      match p.sub.join with
      | none => none
      | some username =>
          if p.token_type == some "refresh" then
            get_user_by_username_and_token db username t
          else none

/-- Outcome of `get_current_user`.  `unauthorized` is the 401
`credentials_exception`; `keyError` is an uncaught Python `KeyError`
escaping the handler (HTTP 500), which `except JWTError` does not
catch. -/
inductive AuthOutcome where
  | ok (u : UserRec)
  | unauthorized
  | keyError
deriving DecidableEq, Repr

/-- Embeds the cache-hit branch of `get_current_user`: a `User(...)`
built from the seven cached fields only, so its `role` attribute is
unset (`none`). -/
def userFromCache (cu : CachedUser) : UserRec :=
  ⟨cu.id, cu.username, cu.email, cu.hashed_password, cu.created_at, cu.avatar,
   cu.refresh_token, none⟩

/-- Embeds `get_current_user` (src/services/auth.py): decode the token
(`except JWTError` → 401); `payload["sub"]` (KeyError when the claim is
absent); 401 when the subject is null; on a cache hit rebuild the user
from the snapshot; otherwise query the database and 401 when the user is
missing.  The function performs no cache write. -/
def get_current_user (db : Db) (cache : Cache) (secret : String) (now : Int)
    (t : Token) : AuthOutcome :=
  match jwtDecode t secret now with
  | none => .unauthorized
  | some p =>
      match p.sub with
      | none => .keyError
      | some none => .unauthorized
      | some (some username) =>
          match cacheGet cache ("user:" ++ username) with
          | some cu => .ok (userFromCache cu)
          | none =>
              match get_user_by_username db username with
              | none => .unauthorized
              | some u => .ok u

/-- `get_current_user` as a handler with its (empty) effect trace: the
source contains no `redis_service.set` or `delete` call. -/
def get_current_user_effects (db : Db) (cache : Cache) (secret : String) (now : Int)
    (t : Token) : AuthOutcome × List Effect :=
  (get_current_user db cache secret now t, [])

/-- The `TokenModel` response body of login/register/refresh. -/
structure TokenPair where
  access_token : Token
  refresh_token : Token
  token_type : String
deriving DecidableEq, Repr

/-- Outcome of the `login` handler. -/
inductive LoginResult where
  | ok (tokens : TokenPair)
  | unauthorized401
deriving DecidableEq, Repr

/-- Embeds the `login` handler (src/api/auth.py): look the user up by
username; 401 when absent or the password does not verify against the
stored bcrypt hash; otherwise mint the access and refresh tokens, commit
the refresh token to the user's row, then cache the seven-field snapshot
(with the freshly minted refresh token) under `"user:" + username`. -/
def login (verifyF : String → String → Bool) (secret : String)
    (now accessExp refreshExp : Int) (db : Db) (username password : String) :
    LoginResult × List Effect :=
  match get_user_by_username db username with
  | none => (.unauthorized401, [])
  | some user =>
      if verifyF password user.hashed_password then
        let access := create_access_token user.username now accessExp secret
        let refresh := create_refresh_token user.username now refreshExp secret
        let db2 := (save_refresh_token db user.username (some refresh)).1
        let cu : CachedUser :=
          ⟨user.id, user.username, user.email, user.hashed_password,
           user.created_at, user.avatar, some refresh⟩
        (.ok ⟨access, refresh, "bearer"⟩,
         [.dbCommit db2, .cacheSet ("user:" ++ user.username) cu])
      else (.unauthorized401, [])

/-- Embeds the `logout` handler (src/api/auth.py): clear the refresh
token on the authenticated user's row, then delete the cache entry. -/
def logout (db : Db) (current_user : UserRec) : List Effect :=
  let db2 := (save_refresh_token db current_user.username none).1
  [.dbCommit db2, .cacheDelete ("user:" ++ current_user.username)]

/-- Outcome of the `signup` handler. -/
inductive SignupOutcome where
  | conflict409
  | fromLogin (r : LoginResult)
deriving DecidableEq, Repr

/-- Embeds the `signup` handler (src/api/auth.py): 409 when a user with
the requested email or username exists; otherwise hash the password,
insert the row (the `role` column default `"user"` applies at INSERT)
and return the result of the `login` handler run on the updated table.
`newId`, `createdAt` and `avatar` stand for the generated primary key,
the `func.now()` column default and the Gravatar lookup. -/
def signup (verifyF : String → String → Bool) (hashF : String → String)
    (secret : String) (now accessExp refreshExp : Int) (db : Db)
    (newId : Nat) (createdAt : String) (avatar : Option String)
    (username email password : String) : SignupOutcome × List Effect :=
  match get_user_by_email db email with
  | some _ => (.conflict409, [])
  | none =>
      match get_user_by_username db username with
      | some _ => (.conflict409, [])
      | none =>
          let newUser : UserRec :=
            ⟨newId, username, email, hashF password, createdAt, avatar, none, some "user"⟩
          let db2 := db ++ [newUser]
          let r := login verifyF secret now accessExp refreshExp db2 username password
          (.fromLogin r.1, .dbCommit db2 :: r.2)

/-- The response of `request_password_reset`: HTTP status and message
body. -/
structure ResetResponse where
  status : Nat
  message : String
deriving DecidableEq, Repr

/-- An out-of-band emission of `request_password_reset` (the reset token
that would be e-mailed; the source logs it).  Not part of the HTTP
response. -/
inductive OutOfBand where
  | resetTokenLogged (email : String) (token : Token)
deriving DecidableEq, Repr

/-- Embeds the `request_password_reset` handler (src/api/auth.py): when
a user with the email exists, mint a reset token and emit it out of
band; in every case return the same 202 response body. -/
def request_password_reset (db : Db) (secret : String) (now : Int) (salt : String)
    (email : String) : ResetResponse × List OutOfBand :=
  match get_user_by_email db email with
  | some user =>
      let token := create_password_reset_token user.email salt now secret
      (⟨202, "If your email exists in our system, you will receive a password reset link"⟩,
       [.resetTokenLogged user.email token])
  | none =>
      (⟨202, "If your email exists in our system, you will receive a password reset link"⟩,
       [])

/-- Embeds `verify_password_reset_token` (src/services/auth.py): decode;
`None` unless `token_type == "password_reset"` and an `email` claim is
present. -/
def verify_password_reset_token (t : Token) (secret : String) (now : Int) :
    Option Payload :=
  match jwtDecode t secret now with
  | none => none
  | some p =>
      if p.token_type == some "password_reset" && p.email.isSome then some p
      else none

/-- Modelled from the spec: `UserService.update_password` is called by
the confirm step of the reset flow (src/api/auth.py) but its definition
is not among the sources; per the spec the confirm step "looks the user
up by the embedded email, rewrites the hash".  Returns the new table and
the updated row. -/
def update_password (db : Db) (email : String) (newHash : String) :
    Db × Option UserRec :=
  match get_user_by_email db email with
  | none => (db, none)
  | some u =>
      (db.map (fun r => if r.email == email then { r with hashed_password := newHash } else r),
       some { u with hashed_password := newHash })

/-- Outcome of `confirm_password_reset`. -/
inductive ConfirmResetOutcome where
  | badRequest400
  | notFound404
  | ok200
deriving DecidableEq, Repr

/-- Embeds the `confirm_password_reset` handler (src/api/auth.py):
verify the reset token (400 on failure); rewrite the hash for the
embedded email (404 when no such user); commit, then delete the user's
cache entry. -/
def confirm_password_reset (hashF : String → String) (db : Db) (secret : String)
    (now : Int) (t : Token) (password : String) : ConfirmResetOutcome × List Effect :=
  match verify_password_reset_token t secret now with
  | none => (.badRequest400, [])
  | some p =>
      match p.email with
      | none => (.notFound404, [])
      | some email =>
          match update_password db email (hashF password) with
          | (_, none) => (.notFound404, [])
          | (db2, some u) =>
              (.ok200, [.dbCommit db2, .cacheDelete ("user:" ++ u.username)])

/-- Outcome of the avatar / role mutation handlers. -/
inductive UpdateOutcome where
  | forbidden403
  | badRequest400
  | notFound404
  | serverError500
  | updated (u : UserRec)
deriving DecidableEq, Repr

/-- Embeds `UserRepository.update_avatar_url`: look the user up by
email; if present overwrite the avatar column and commit. -/
def update_avatar_url (db : Db) (email : String) (url : String) :
    Db × Option UserRec :=
  match get_user_by_email db email with
  | none => (db, none)
  | some u =>
      (db.map (fun r => if r.email == email then { r with avatar := some url } else r),
       some { u with avatar := some url })

/-- Embeds the `update_avatar` handler (src/api/users.py): 403 unless
`current_user.is_admin()`; 400 unless the declared content type is
JPEG/PNG/GIF; `uploadResult` stands for the Cloudinary call (`none` =
the upload raised, reported as 500).  On success, commit the new avatar
URL to the row matching the caller's email, then delete the caller's
cache entry.  When the email matches no row the source still deletes the
cache entry and returns the `None` row. -/
def update_avatar (db : Db) (current_user : UserRec) (contentType : String)
    (uploadResult : Option String) : UpdateOutcome × List Effect :=
  if !(is_admin current_user) then (.forbidden403, [])
  else if !(["image/jpeg", "image/png", "image/gif"].contains contentType) then
    (.badRequest400, [])
  else
    match uploadResult with
    | none => (.serverError500, [])
    | some url =>
        match update_avatar_url db current_user.email url with
        | (_, none) => (.notFound404, [.cacheDelete ("user:" ++ current_user.username)])
        | (db2, some u) =>
            (.updated u, [.dbCommit db2, .cacheDelete ("user:" ++ current_user.username)])

/-- Modelled from the spec: `UserService.change_user_role` is called by
the `update_user_role` handler (src/api/users.py) but its definition is
not among the sources; per the spec "Role change (admin-only) rewrites
the role field" and commits it.  Returns the new table and the updated
row. -/
def change_user_role (db : Db) (user_id : Nat) (role : String) :
    Db × Option UserRec :=
  match get_user_by_id db user_id with
  | none => (db, none)
  | some u =>
      (db.map (fun r => if r.id == user_id then { r with role := some role } else r),
       some { u with role := some role })

/-- Embeds the `update_user_role` handler (src/api/users.py), run after
the admin-only dependency has authorized the caller: 404 when no user
has the id; otherwise rewrite the role (committing it), then delete the
cache entry keyed by the updated user's username. -/
def update_user_role (db : Db) (user_id : Nat) (role : String) :
    UpdateOutcome × List Effect :=
  match get_user_by_id db user_id with
  | none => (.notFound404, [])
  | some _ =>
      match change_user_role db user_id role with
      | (_, none) => (.notFound404, [])
      | (db2, some u) =>
          (.updated u, [.dbCommit db2, .cacheDelete ("user:" ++ u.username)])

/-- Sample signing secret for concrete evaluations. -/
def sampleSecret : String := "server-secret"

/-- Sample refresh token for the user `alice` (minted at time 0 with the
default 7-day expiry). -/
def aliceRefresh : Token := create_refresh_token "alice" 0 604800 sampleSecret

/-- Sample deterministic stand-in for the bcrypt hash, for concrete
evaluations. -/
def sampleHash (pw : String) : String := "hashed:" ++ pw

/-- Sample stand-in for bcrypt verification, satisfying the library
contract against `sampleHash`. -/
def sampleVerify (pw h : String) : Bool := sampleHash pw == h

/-- Sample database row: an admin whose stored refresh token is
`aliceRefresh`. -/
def alice : UserRec :=
  ⟨1, "alice", "alice@example.com", "hashed:pw-a", "2024-01-01T00:00:00", none,
   some aliceRefresh, some "admin"⟩

/-- Sample database row: a regular user with no stored refresh token. -/
def bob : UserRec :=
  ⟨2, "bobby", "bob@example.com", "hashed:pw-b", "2024-01-02T00:00:00", none, none,
   some "user"⟩

/-- Sample users table. -/
def sampleDb : Db := [alice, bob]

/-- Sample contact owned by `alice` (user id 1), date of birth at day 3. -/
def contactA : ContactRec := ⟨1, "Anna", "Ahn", "111", "anna@x.com", 3, 1⟩

/-- Sample contact owned by `bob` (user id 2), date of birth at day 5. -/
def contactB : ContactRec := ⟨2, "Ben", "Bee", "222", "ben@x.com", 5, 2⟩

/-- Sample contact owned by `alice` with date of birth one day past a
7-day window that starts at day 0. -/
def contactLate : ContactRec := ⟨3, "Cara", "Cee", "333", "cara@x.com", 8, 1⟩

/-- Sample contacts table. -/
def sampleContacts : ContactDb := [contactA, contactB, contactLate]

/-- Looking a key up after removing it always misses. -/
theorem cacheGet_remove_self (c : Cache) (k : String) :
    cacheGet (cacheRemove c k) k = none := by
  unfold cacheGet cacheRemove
  have h : (c.filter (fun e => e.1 != k)).find? (fun e => e.1 == k) = none := by
    rw [List.find?_eq_none]
    intro e he
    have h2 := (List.mem_filter.mp he).2
    simp only [bne_iff_ne, ne_eq] at h2
    simp [h2]
  rw [h]
  rfl

/-- Looking a key up right after writing it returns the written value. -/
theorem cacheGet_insert_self (c : Cache) (k : String) (v : CachedUser) :
    cacheGet (cacheInsert c k v) k = some v := by
  unfold cacheGet cacheInsert
  rw [List.find?_cons_of_pos]
  · rfl
  · simp

/-- C2: contact listing and contact lookup, invoked with `A` as the
authenticated user, return only contacts whose owning user id equals
`A.id`; for any user `B` with a different id, no contact owned by `B`
appears in `A`'s results, for every value of the pagination and search
parameters. -/
theorem contacts_user_isolation (cdb : ContactDb) (A : UserRec)
    (skip limit : Nat) (q : Option String) :
    (∀ c ∈ get_contacts cdb A skip limit q, c.user_id = A.id)
    ∧ (∀ contact_id c, get_contact cdb contact_id A = some c → c.user_id = A.id)
    ∧ (∀ B : UserRec, B.id ≠ A.id →
        ∀ c ∈ get_contacts cdb A skip limit q, c.user_id ≠ B.id) := by
  have key : ∀ c ∈ get_contacts cdb A skip limit q, c.user_id = A.id := by
    intro c hc
    unfold get_contacts at hc
    have hc1 := List.drop_subset _ _ (List.take_subset _ _ hc)
    have hc3 : c ∈ cdb.filter (fun c => c.user_id == A.id) := by
      match q with
      | none => exact hc1
      | some qs =>
          simp only at hc1
          by_cases h : qs.length > 0
          · rw [if_pos h] at hc1
            exact List.mem_of_mem_filter hc1
          · rw [if_neg h] at hc1
            exact hc1
    have := (List.mem_filter.mp hc3).2
    simpa using this
  refine ⟨key, ?_, ?_⟩
  · intro contact_id c hc
    unfold get_contact at hc
    have := List.find?_some hc
    simp only [Bool.and_eq_true, beq_iff_eq] at this
    exact this.2
  · intro B hBA c hc hcB
    exact hBA (by rw [← hcB, key c hc])

/-- Witness for C2 at a concrete database: alice's lookup of contact 1
succeeds, and the isolation theorem yields its owner id. -/
theorem contacts_user_isolation_witness :
    get_contact sampleContacts 1 alice = some contactA
    ∧ contactA.user_id = alice.id :=
  ⟨by decide,
   (contacts_user_isolation sampleContacts alice 0 100 none).2.1 1 contactA (by decide)⟩

/-- C9: for every `days` in the accepted 1..365 range, the birthdays
query returns exactly the caller's contacts whose date of birth lies in
the closed interval from today to today plus `days`, and excludes any
contact dated one day past the window. -/
theorem birthdays_inclusive_window (cdb : ContactDb) (u : UserRec)
    (today days : Int) (hdays : 1 ≤ days ∧ days ≤ 365) :
    (∃ l, upcoming_birthdays cdb days u today = some l ∧
      ∀ c : ContactRec, c ∈ l ↔ c ∈ cdb ∧ c.user_id = u.id ∧
        today ≤ c.date_of_birth ∧ c.date_of_birth ≤ today + days)
    ∧ (∀ c : ContactRec, c.date_of_birth = today + days + 1 →
        c ∉ get_birthdays cdb days u today) := by
  constructor
  · refine ⟨get_birthdays cdb days u today, ?_, ?_⟩
    · unfold upcoming_birthdays
      rw [if_pos hdays]
    · intro c
      unfold get_birthdays
      rw [List.mem_filter]
      simp only [Bool.and_eq_true, beq_iff_eq, decide_eq_true_eq]
      tauto
  · intro c hdob hmem
    unfold get_birthdays at hmem
    have := (List.mem_filter.mp hmem).2
    simp only [Bool.and_eq_true, beq_iff_eq, decide_eq_true_eq] at this
    omega

/-- Witness for C9 at a concrete database and a 7-day window starting at
day 0: the window contains alice's contact dated day 3 and excludes the
one dated day 8. -/
theorem birthdays_inclusive_window_witness :
    ((1:Int) ≤ 7 ∧ (7:Int) ≤ 365)
    ∧ ((∃ l, upcoming_birthdays sampleContacts 7 alice 0 = some l ∧
        ∀ c : ContactRec, c ∈ l ↔ c ∈ sampleContacts ∧ c.user_id = alice.id ∧
          (0:Int) ≤ c.date_of_birth ∧ c.date_of_birth ≤ 0 + 7)
      ∧ (∀ c : ContactRec, c.date_of_birth = 0 + 7 + 1 →
          c ∉ get_birthdays sampleContacts 7 alice 0)) :=
  ⟨by decide, birthdays_inclusive_window sampleContacts alice 0 7 (by decide)⟩

/-- C8: the password-reset request returns the same 202 response body
whether or not a user with the submitted email exists: two runs on any
two databases (in particular two databases differing only in the
presence of that user) produce identical responses, revealing no account
existence. -/
theorem reset_request_uniform_response (db1 db2 : Db) (secret : String)
    (now : Int) (salt : String) (email : String) :
    (request_password_reset db1 secret now salt email).1 =
      (request_password_reset db2 secret now salt email).1
    ∧ (request_password_reset db1 secret now salt email).1.status = 202 := by
  unfold request_password_reset
  constructor
  · cases get_user_by_email db1 email <;> cases get_user_by_email db2 email <;> rfl
  · cases get_user_by_email db1 email <;> rfl

/-- C4: the claim that a validly signed, unexpired token whose payload
lacks the `sub` claim yields the 401 invalid-credentials failure is
violated by the code: `payload["sub"]` raises a `KeyError` that the
`except JWTError` handler does not catch, so the request fails with an
unhandled server error instead.  Evaluated here at a concrete validly
signed, unexpired token with no subject claim. -/
theorem missing_sub_uncaught_keyerror :
    get_current_user sampleDb [] sampleSecret 0
      (.signed ⟨none, some "access", none, none, 3600, some 0⟩ sampleSecret) =
        .keyError
    ∧ get_current_user sampleDb [] sampleSecret 0
        (.signed ⟨none, some "access", none, none, 3600, some 0⟩ sampleSecret) ≠
          .unauthorized
    ∧ jwtDecode (.signed ⟨none, some "access", none, none, 3600, some 0⟩ sampleSecret)
        sampleSecret 0 = some ⟨none, some "access", none, none, 3600, some 0⟩ := by
  decide

/-- C1: refresh-token verification returns a user iff the token's
signature and expiry are valid, its payload carries a subject and
`token_type = "refresh"`, and the presented token equals the refresh
token stored on that user's row; and once logout clears the stored
refresh token of a user, verification rejects every token whose subject
is that user (returns no user). -/
theorem refresh_token_verification (db : Db) (secret : String) (now : Int)
    (huniq : ∀ r1 ∈ db, ∀ r2 ∈ db, r1.username = r2.username → r1 = r2) :
    (∀ t u, verify_refresh_token db secret now t = some u ↔
      (∃ p, jwtDecode t secret now = some p ∧ p.sub.join = some u.username ∧
        p.token_type = some "refresh")
      ∧ u ∈ db ∧ u.refresh_token = some t)
    ∧ (∀ un t p, jwtDecode t secret now = some p → p.sub.join = some un →
        verify_refresh_token (save_refresh_token db un none).1 secret now t = none) := by
  constructor
  · intro t u
    constructor
    · intro hv
      unfold verify_refresh_token at hv
      cases hd : jwtDecode t secret now with
      | none => rw [hd] at hv; exact absurd hv (by simp)
      | some p =>
          rw [hd] at hv
          dsimp only at hv
          cases hs : p.sub.join with
          | none => rw [hs] at hv; exact absurd hv (by simp)
          | some username =>
              rw [hs] at hv
              dsimp only at hv
              by_cases hty : (p.token_type == some "refresh") = true
              · rw [if_pos hty] at hv
                unfold get_user_by_username_and_token at hv
                have hpred := List.find?_some hv
                have hmem := List.mem_of_find?_eq_some hv
                simp only [Bool.and_eq_true, beq_iff_eq] at hpred
                exact ⟨⟨p, rfl, by rw [hs, hpred.1], by simpa using hty⟩,
                       hmem, hpred.2⟩
              · rw [if_neg hty] at hv
                exact absurd hv (by simp)
    · rintro ⟨⟨p, hd, hsub, hty⟩, hmem, hrt⟩
      unfold verify_refresh_token
      rw [hd]
      dsimp only
      rw [hsub]
      dsimp only
      rw [if_pos (by simp [hty])]
      unfold get_user_by_username_and_token
      cases hf : db.find? (fun r => r.username == u.username && r.refresh_token == some t) with
      | none =>
          rw [List.find?_eq_none] at hf
          exact absurd (by simp [hrt] : (u.username == u.username && u.refresh_token == some t) = true)
            (by simpa using hf u hmem)
      | some r =>
          have hpred := List.find?_some hf
          have hmemr := List.mem_of_find?_eq_some hf
          simp only [Bool.and_eq_true, beq_iff_eq] at hpred
          rw [huniq r hmemr u hmem hpred.1]
  · intro un t p hd hsub
    unfold verify_refresh_token
    rw [hd]
    dsimp only
    rw [hsub]
    dsimp only
    by_cases hty : (p.token_type == some "refresh") = true
    · rw [if_pos hty]
      unfold get_user_by_username_and_token
      rw [List.find?_eq_none]
      intro r hr
      unfold save_refresh_token at hr
      cases hf : db.find? (fun r => r.username == un) with
      | none =>
          rw [hf] at hr
          rw [List.find?_eq_none] at hf
          have := hf r hr
          simp only [beq_iff_eq] at this
          simp [this]
      | some w =>
          rw [hf] at hr
          simp only [List.mem_map] at hr
          obtain ⟨r0, _, hr0⟩ := hr
          by_cases he : (r0.username == un) = true
          · rw [if_pos he] at hr0
            subst hr0
            simp
          · rw [if_neg he] at hr0
            subst hr0
            simp only [beq_iff_eq] at he ⊢
            simp [he]
    · rw [if_neg hty]

/-- Witness for C1 at a concrete database: alice's stored refresh token
verifies to alice, and after clearing alice's stored token the same
token is rejected. -/
theorem refresh_token_verification_witness :
    (∀ r1 ∈ sampleDb, ∀ r2 ∈ sampleDb, r1.username = r2.username → r1 = r2)
    ∧ verify_refresh_token sampleDb sampleSecret 0 aliceRefresh = some alice
    ∧ verify_refresh_token (save_refresh_token sampleDb "alice" none).1
        sampleSecret 0 aliceRefresh = none := by
  have huniq : ∀ r1 ∈ sampleDb, ∀ r2 ∈ sampleDb, r1.username = r2.username → r1 = r2 := by
    decide
  refine ⟨huniq, ?_, ?_⟩
  · exact ((refresh_token_verification sampleDb sampleSecret 0 huniq).1
      aliceRefresh alice).mpr
      ⟨⟨⟨some (some "alice"), some "refresh", none, none, 0 + 604800, some 0⟩,
        by decide, by decide, by decide⟩, by decide, by decide⟩
  · exact (refresh_token_verification sampleDb sampleSecret 0 huniq).2
      "alice" aliceRefresh
      ⟨some (some "alice"), some "refresh", none, none, 0 + 604800, some 0⟩
      (by decide) (by decide)

/-- C3: a successful role change and a successful avatar change each
first commit the new value to the target user's row and then delete
(never rewrite) the cache entry keyed `"user:" + username`, so that
immediately after the operation the cache holds no entry for that user
and the next current-user resolution must read the database. -/
theorem role_avatar_commit_then_invalidate (db : Db) (cache : Cache) :
    (∀ user_id role (u : UserRec), get_user_by_id db user_id = some u →
      ∃ db2,
        (update_user_role db user_id role).2 =
          [.dbCommit db2, .cacheDelete ("user:" ++ u.username)]
        ∧ (∀ r ∈ db2, r.id = user_id → r.role = some role)
        ∧ cacheGet (applyEffects (db, cache) (update_user_role db user_id role).2).2
            ("user:" ++ u.username) = none
        ∧ (∀ k v, Effect.cacheSet k v ∉ (update_user_role db user_id role).2))
    ∧ (∀ (current_user : UserRec) (contentType url : String) (u : UserRec),
        is_admin current_user = true →
        (["image/jpeg", "image/png", "image/gif"] : List String).contains contentType = true →
        get_user_by_email db current_user.email = some u →
        ∃ db2,
          (update_avatar db current_user contentType (some url)).2 =
            [.dbCommit db2, .cacheDelete ("user:" ++ current_user.username)]
          ∧ (∀ r ∈ db2, r.email = current_user.email → r.avatar = some url)
          ∧ cacheGet (applyEffects (db, cache)
              (update_avatar db current_user contentType (some url)).2).2
              ("user:" ++ current_user.username) = none
          ∧ (∀ k v, Effect.cacheSet k v ∉
              (update_avatar db current_user contentType (some url)).2)) := by
  constructor
  · intro user_id role u h
    have heff : (update_user_role db user_id role).2 =
        [.dbCommit (db.map fun r => if r.id == user_id then { r with role := some role } else r),
         .cacheDelete ("user:" ++ u.username)] := by
      unfold update_user_role change_user_role
      rw [h]
    refine ⟨_, heff, ?_, ?_, ?_⟩
    · intro r hr hid
      obtain ⟨r0, _, hr0⟩ := List.mem_map.mp hr
      by_cases he : (r0.id == user_id) = true
      · rw [if_pos he] at hr0
        rw [← hr0]
      · rw [if_neg he] at hr0
        subst hr0
        simp only [beq_iff_eq] at he
        exact absurd hid he
    · rw [heff]
      exact cacheGet_remove_self cache _
    · rw [heff]
      intro k v
      simp
  · intro current_user contentType url u hadmin hct h
    have heff : (update_avatar db current_user contentType (some url)).2 =
        [.dbCommit (db.map fun r =>
           if r.email == current_user.email then { r with avatar := some url } else r),
         .cacheDelete ("user:" ++ current_user.username)] := by
      unfold update_avatar update_avatar_url
      rw [hadmin, hct, h]
      simp
    refine ⟨_, heff, ?_, ?_, ?_⟩
    · intro r hr hemail
      obtain ⟨r0, _, hr0⟩ := List.mem_map.mp hr
      by_cases he : (r0.email == current_user.email) = true
      · rw [if_pos he] at hr0
        rw [← hr0]
      · rw [if_neg he] at hr0
        subst hr0
        simp only [beq_iff_eq] at he
        exact absurd hemail he
    · rw [heff]
      exact cacheGet_remove_self cache _
    · rw [heff]
      intro k v
      simp

/-- Witness for C3 at a concrete state: promoting bob (id 2) to admin
commits the role and leaves no cache entry for bob. -/
theorem role_avatar_commit_then_invalidate_witness :
    get_user_by_id sampleDb 2 = some bob
    ∧ ∃ db2,
        (update_user_role sampleDb 2 "admin").2 =
          [.dbCommit db2, .cacheDelete ("user:" ++ bob.username)]
        ∧ (∀ r ∈ db2, r.id = 2 → r.role = some "admin")
        ∧ cacheGet (applyEffects (sampleDb, []) (update_user_role sampleDb 2 "admin").2).2
            ("user:" ++ bob.username) = none
        ∧ (∀ k v, Effect.cacheSet k v ∉ (update_user_role sampleDb 2 "admin").2) :=
  ⟨by decide, (role_avatar_commit_then_invalidate sampleDb []).1 2 "admin" bob (by decide)⟩

/-- C5: the snapshot that login caches carries exactly id, username,
email, hashed_password, created_at, avatar and refresh_token — no role —
and a cache hit rebuilds the user from those fields alone.  Hence for a
user whose database role is admin, a request resolved from the cache
yields a user for whom `is_admin` is false, and the admin gate of the
avatar endpoint rejects that request with 403, even though `is_admin` is
true on the database row. -/
theorem cached_snapshot_drops_role (verifyF : String → String → Bool)
    (secret : String) (now accessExp refreshExp : Int)
    (db : Db) (cache : Cache) (username password : String) (u : UserRec)
    (hfind : get_user_by_username db username = some u)
    (hverify : verifyF password u.hashed_password = true)
    (hexp : 0 ≤ accessExp)
    (hrole : u.role = some "admin") :
    ∃ st : Db × Cache,
      st = applyEffects (db, cache)
        (login verifyF secret now accessExp refreshExp db username password).2
      ∧ cacheGet st.2 ("user:" ++ u.username) =
          some ⟨u.id, u.username, u.email, u.hashed_password, u.created_at, u.avatar,
                some (create_refresh_token u.username now refreshExp secret)⟩
      ∧ ∃ v : UserRec,
          get_current_user st.1 st.2 secret now
            (create_access_token u.username now accessExp secret) = .ok v
          ∧ v.role = none
          ∧ is_admin v = false
          ∧ is_admin u = true
          ∧ v.id = u.id ∧ v.username = u.username
          ∧ ∀ ct up, (update_avatar st.1 v ct up).1 = .forbidden403 := by
  have heff : (login verifyF secret now accessExp refreshExp db username password).2 =
      [.dbCommit (save_refresh_token db u.username
          (some (create_refresh_token u.username now refreshExp secret))).1,
       .cacheSet ("user:" ++ u.username)
          ⟨u.id, u.username, u.email, u.hashed_password, u.created_at, u.avatar,
           some (create_refresh_token u.username now refreshExp secret)⟩] := by
    unfold login
    rw [hfind]
    dsimp only
    rw [if_pos hverify]
  refine ⟨_, rfl, ?_, ?_⟩
  · rw [heff]
    exact cacheGet_insert_self _ _ _
  · refine ⟨userFromCache
      ⟨u.id, u.username, u.email, u.hashed_password, u.created_at, u.avatar,
       some (create_refresh_token u.username now refreshExp secret)⟩, ?_, rfl, rfl,
      by simp [is_admin, hrole], rfl, rfl, ?_⟩
    · unfold get_current_user
      have hdec : jwtDecode (create_access_token u.username now accessExp secret)
          secret now =
          some ⟨some (some u.username), some "access", none, none, now + accessExp, some now⟩ := by
        unfold create_access_token create_token jwtDecode
        dsimp only
        rw [if_pos]
        simp only [beq_self_eq_true, Bool.true_and, decide_eq_true_eq]
        omega
      rw [hdec]
      dsimp only
      rw [heff]
      have hget : cacheGet (applyEffects (db, cache)
          [Effect.dbCommit (save_refresh_token db u.username
              (some (create_refresh_token u.username now refreshExp secret))).1,
           Effect.cacheSet ("user:" ++ u.username)
              ⟨u.id, u.username, u.email, u.hashed_password, u.created_at, u.avatar,
               some (create_refresh_token u.username now refreshExp secret)⟩]).2
          ("user:" ++ u.username) =
          some ⟨u.id, u.username, u.email, u.hashed_password, u.created_at, u.avatar,
                some (create_refresh_token u.username now refreshExp secret)⟩ :=
        cacheGet_insert_self _ _ _
      rw [hget]
    · intro ct up
      unfold update_avatar
      rw [if_pos]
      simp [userFromCache, is_admin]

/-- Witness for C5 at a concrete state: alice is an admin in the
database, logs in, and the cache-resolved user has no role. -/
theorem cached_snapshot_drops_role_witness :
    (get_user_by_username sampleDb "alice" = some alice
     ∧ sampleVerify "pw-a" alice.hashed_password = true
     ∧ (0:Int) ≤ 3600
     ∧ alice.role = some "admin")
    ∧ ∃ st : Db × Cache,
      st = applyEffects (sampleDb, [])
        (login sampleVerify sampleSecret 0 3600 604800 sampleDb "alice" "pw-a").2
      ∧ cacheGet st.2 ("user:" ++ alice.username) =
          some ⟨alice.id, alice.username, alice.email, alice.hashed_password,
                alice.created_at, alice.avatar,
                some (create_refresh_token alice.username 0 604800 sampleSecret)⟩
      ∧ ∃ v : UserRec,
          get_current_user st.1 st.2 sampleSecret 0
            (create_access_token alice.username 0 3600 sampleSecret) = .ok v
          ∧ v.role = none
          ∧ is_admin v = false
          ∧ is_admin alice = true
          ∧ v.id = alice.id ∧ v.username = alice.username
          ∧ ∀ ct up, (update_avatar st.1 v ct up).1 = .forbidden403 :=
  ⟨⟨by decide, by decide, by decide, by decide⟩,
   cached_snapshot_drops_role sampleVerify sampleSecret 0 3600 604800 sampleDb []
     "alice" "pw-a" alice (by decide) (by decide) (by decide) (by decide)⟩

/-- C6: current-user resolution yields the 401 invalid-credentials error
exactly when JWT decoding fails, or the decoded subject is null, or (on
a cache miss for the subject) no user with the decoded subject exists in
the database; it never inspects the `token_type` claim — the outcome is
invariant under changing it — so every validly signed, unexpired token
carrying a subject that resolves to a user (via cache or database),
including a refresh token minted by login, is accepted as if it were an
access token. -/
theorem current_user_resolution_spec (db : Db) (cache : Cache) (secret : String)
    (now : Int) :
    (∀ t, get_current_user db cache secret now t = .unauthorized ↔
        jwtDecode t secret now = none
      ∨ (∃ p, jwtDecode t secret now = some p ∧ p.sub = some none)
      ∨ (∃ p s, jwtDecode t secret now = some p ∧ p.sub = some (some s) ∧
          cacheGet cache ("user:" ++ s) = none ∧ get_user_by_username db s = none))
    ∧ (∀ (p : Payload) (s : String) (ty1 ty2 : Option String),
        get_current_user db cache secret now (.signed { p with token_type := ty1 } s) =
        get_current_user db cache secret now (.signed { p with token_type := ty2 } s))
    ∧ (∀ un exp iat, now ≤ exp →
        ((∃ cu, cacheGet cache ("user:" ++ un) = some cu)
          ∨ (∃ u, get_user_by_username db un = some u)) →
        ∃ v, get_current_user db cache secret now
          (.signed ⟨some (some un), some "refresh", none, none, exp, iat⟩ secret) = .ok v) := by
  refine ⟨?_, ?_, ?_⟩
  · intro t
    cases hd : jwtDecode t secret now with
    | none =>
        have hL : get_current_user db cache secret now t = .unauthorized := by
          unfold get_current_user
          rw [hd]
        rw [hL]
        simp [hd]
    | some p =>
        cases hs : p.sub with
        | none =>
            have hL : get_current_user db cache secret now t = .keyError := by
              unfold get_current_user
              rw [hd]
              dsimp only
              rw [hs]
            rw [hL]
            simp [hd, hs]
        | some subv =>
            cases subv with
            | none =>
                have hL : get_current_user db cache secret now t = .unauthorized := by
                  unfold get_current_user
                  rw [hd]
                  dsimp only
                  rw [hs]
                rw [hL]
                simp [hd, hs]
            | some s =>
                cases hc : cacheGet cache ("user:" ++ s) with
                | some cu =>
                    have hL : get_current_user db cache secret now t =
                        .ok (userFromCache cu) := by
                      unfold get_current_user
                      rw [hd]
                      dsimp only
                      rw [hs]
                      dsimp only
                      rw [hc]
                    rw [hL]
                    simp [hd, hs, hc]
                | none =>
                    cases hu : get_user_by_username db s with
                    | none =>
                        have hL : get_current_user db cache secret now t =
                            .unauthorized := by
                          unfold get_current_user
                          rw [hd]
                          dsimp only
                          rw [hs]
                          dsimp only
                          rw [hc]
                          dsimp only
                          rw [hu]
                        rw [hL]
                        simp [hd, hs, hc, hu]
                    | some u =>
                        have hL : get_current_user db cache secret now t = .ok u := by
                          unfold get_current_user
                          rw [hd]
                          dsimp only
                          rw [hs]
                          dsimp only
                          rw [hc]
                          dsimp only
                          rw [hu]
                        rw [hL]
                        simp [hd, hs, hc, hu]
  · intro p s ty1 ty2
    cases p with
    | mk sub tt em sa ex ia =>
        unfold get_current_user jwtDecode
        dsimp only
        by_cases h : (s == secret && decide (now ≤ ex)) = true
        · rw [if_pos h, if_pos h]
        · rw [if_neg h, if_neg h]
  · intro un exp iat hexp hres
    have hdec : jwtDecode (.signed ⟨some (some un), some "refresh", none, none, exp, iat⟩ secret)
        secret now = some ⟨some (some un), some "refresh", none, none, exp, iat⟩ := by
      unfold jwtDecode
      dsimp only
      rw [if_pos]
      simp only [beq_self_eq_true, Bool.true_and, decide_eq_true_eq]
      exact hexp
    cases hc : cacheGet cache ("user:" ++ un) with
    | some cu =>
        refine ⟨userFromCache cu, ?_⟩
        unfold get_current_user
        rw [hdec]
        dsimp only
        rw [hc]
    | none =>
        rcases hres with ⟨cu, hcu⟩ | ⟨u, hu⟩
        · rw [hc] at hcu
          exact absurd hcu (by simp)
        · refine ⟨u, ?_⟩
          unfold get_current_user
          rw [hdec]
          dsimp only
          rw [hc]
          dsimp only
          rw [hu]

/-- Witness for C6 at a concrete state: a validly signed, unexpired
refresh token whose subject is alice is accepted by current-user
resolution on an empty cache. -/
theorem current_user_resolution_spec_witness :
    ((0:Int) ≤ 3600
     ∧ ((∃ cu, cacheGet [] ("user:" ++ "alice") = some cu)
         ∨ (∃ u, get_user_by_username sampleDb "alice" = some u)))
    ∧ ∃ v, get_current_user sampleDb [] sampleSecret 0
        (.signed ⟨some (some "alice"), some "refresh", none, none, 3600, none⟩
          sampleSecret) = .ok v :=
  ⟨⟨by decide, Or.inr ⟨alice, by decide⟩⟩,
   (current_user_resolution_spec sampleDb [] sampleSecret 0).2.2 "alice" 3600 none
     (by decide) (Or.inr ⟨alice, by decide⟩)⟩

/-- C7: login is the only modelled operation that writes a user entry
into the cache: current-user resolution on a cache miss that finds the
user in the database returns the database row and performs no side
effect (the cache is unchanged — the miss path does not populate the
entry), none of logout, avatar update, role update or password-reset
confirmation ever emits a cache write, and a successful login emits
exactly one cache write. -/
theorem login_sole_cache_writer (verifyF : String → String → Bool)
    (hashF : String → String) (secret : String) (now accessExp refreshExp : Int) :
    (∀ (db : Db) (cache : Cache) (t : Token) (p : Payload) (username : String)
        (u : UserRec),
        jwtDecode t secret now = some p →
        p.sub = some (some username) →
        cacheGet cache ("user:" ++ username) = none →
        get_user_by_username db username = some u →
        get_current_user_effects db cache secret now t = (.ok u, [])
        ∧ applyEffects (db, cache) (get_current_user_effects db cache secret now t).2 =
            (db, cache))
    ∧ (∀ (db : Db) (u : UserRec) (k : String) (v : CachedUser),
        Effect.cacheSet k v ∉ logout db u)
    ∧ (∀ (db : Db) (u : UserRec) (ct : String) (up : Option String) (k : String)
        (v : CachedUser),
        Effect.cacheSet k v ∉ (update_avatar db u ct up).2)
    ∧ (∀ (db : Db) (uid : Nat) (role k : String) (v : CachedUser),
        Effect.cacheSet k v ∉ (update_user_role db uid role).2)
    ∧ (∀ (db : Db) (t : Token) (pw k : String) (v : CachedUser),
        Effect.cacheSet k v ∉ (confirm_password_reset hashF db secret now t pw).2)
    ∧ (∀ (db : Db) (username password : String) (u : UserRec),
        get_user_by_username db username = some u →
        verifyF password u.hashed_password = true →
        (login verifyF secret now accessExp refreshExp db username password).2 =
          [.dbCommit (save_refresh_token db u.username
              (some (create_refresh_token u.username now refreshExp secret))).1,
           .cacheSet ("user:" ++ u.username)
              ⟨u.id, u.username, u.email, u.hashed_password, u.created_at, u.avatar,
               some (create_refresh_token u.username now refreshExp secret)⟩]) := by
  refine ⟨?_, ?_, ?_, ?_, ?_, ?_⟩
  · intro db cache t p username u hdec hsub hc hu
    have hg : get_current_user db cache secret now t = .ok u := by
      unfold get_current_user
      rw [hdec]
      dsimp only
      rw [hsub]
      dsimp only
      rw [hc]
      dsimp only
      rw [hu]
    have hE : get_current_user_effects db cache secret now t = (.ok u, []) := by
      unfold get_current_user_effects
      rw [hg]
    refine ⟨hE, ?_⟩
    rw [hE]
    rfl
  · intro db u k v
    unfold logout
    simp
  · intro db u ct up k v
    unfold update_avatar
    by_cases h1 : (!(is_admin u)) = true
    · rw [if_pos h1]
      simp
    · rw [if_neg h1]
      by_cases h2 : (!(["image/jpeg", "image/png", "image/gif"] : List String).contains ct) = true
      · rw [if_pos h2]
        simp
      · rw [if_neg h2]
        cases up with
        | none => simp
        | some url =>
            dsimp only
            cases hres : update_avatar_url db u.email url with
            | mk db2 upd => cases upd <;> simp
  · intro db uid role k v
    unfold update_user_role
    cases h : get_user_by_id db uid with
    | none => simp
    | some u =>
        dsimp only
        cases hcr : change_user_role db uid role with
        | mk db2 upd => cases upd <;> simp
  · intro db t pw k v
    unfold confirm_password_reset
    cases h : verify_password_reset_token t secret now with
    | none => simp
    | some p =>
        dsimp only
        cases hp : p.email with
        | none => simp
        | some em =>
            dsimp only
            cases hup : update_password db em (hashF pw) with
            | mk db2 upd => cases upd <;> simp
  · intro db username password u hfind hverify
    unfold login
    rw [hfind]
    dsimp only
    rw [if_pos hverify]

/-- Witness for C7 at a concrete state: resolving bob with an access
token on an empty cache returns bob's database row with no effects,
leaving the cache empty. -/
theorem login_sole_cache_writer_witness :
    (jwtDecode (.signed ⟨some (some "bobby"), some "access", none, none, 3600, some 0⟩
        sampleSecret) sampleSecret 0 =
        some ⟨some (some "bobby"), some "access", none, none, 3600, some 0⟩
     ∧ cacheGet [] ("user:" ++ "bobby") = none
     ∧ get_user_by_username sampleDb "bobby" = some bob)
    ∧ (get_current_user_effects sampleDb [] sampleSecret 0
        (.signed ⟨some (some "bobby"), some "access", none, none, 3600, some 0⟩
          sampleSecret) = (.ok bob, [])
       ∧ applyEffects (sampleDb, []) (get_current_user_effects sampleDb [] sampleSecret 0
          (.signed ⟨some (some "bobby"), some "access", none, none, 3600, some 0⟩
            sampleSecret)).2 = (sampleDb, [])) :=
  ⟨⟨by decide, by decide, by decide⟩,
   (login_sole_cache_writer sampleVerify sampleHash sampleSecret 0 3600 604800).1
     sampleDb []
     (.signed ⟨some (some "bobby"), some "access", none, none, 3600, some 0⟩ sampleSecret)
     ⟨some (some "bobby"), some "access", none, none, 3600, some 0⟩
     "bobby" bob (by decide) rfl (by decide) (by decide)⟩

/-- When the first list has no match, searching the concatenation
searches the second list. -/
theorem find?_append_of_none {α : Type} (p : α → Bool) (l1 l2 : List α)
    (h : l1.find? p = none) : (l1 ++ l2).find? p = l2.find? p := by
  induction l1 with
  | nil => rfl
  | cons a l ih =>
      by_cases hpa : p a = true
      · rw [List.find?_cons_of_pos _ hpa] at h
        exact absurd h (by simp)
      · rw [List.find?_cons_of_neg _ hpa] at h
        rw [List.cons_append, List.find?_cons_of_neg _ hpa]
        exact ih h

/-- C10: registration ends in a 409 conflict with no write (the user
table unchanged) whenever a user with the requested username or email
exists; otherwise it inserts the new user carrying the hashed password
and returns the 201 token pair produced by running the same login flow
on the updated table. -/
theorem signup_conflict_or_login (verifyF : String → String → Bool)
    (hashF : String → String) (secret : String) (now accessExp refreshExp : Int)
    (db : Db) (newId : Nat) (createdAt : String) (avatar : Option String)
    (username email password : String) :
    ((∃ u ∈ db, u.email = email ∨ u.username = username) →
      signup verifyF hashF secret now accessExp refreshExp db newId createdAt avatar
        username email password = (.conflict409, []))
    ∧ ((∀ u ∈ db, u.email ≠ email ∧ u.username ≠ username) →
      verifyF password (hashF password) = true →
      signup verifyF hashF secret now accessExp refreshExp db newId createdAt avatar
          username email password =
        (.fromLogin (login verifyF secret now accessExp refreshExp
            (db ++ [⟨newId, username, email, hashF password, createdAt, avatar, none,
              some "user"⟩]) username password).1,
         .dbCommit (db ++ [⟨newId, username, email, hashF password, createdAt, avatar,
            none, some "user"⟩]) ::
          (login verifyF secret now accessExp refreshExp
            (db ++ [⟨newId, username, email, hashF password, createdAt, avatar, none,
              some "user"⟩]) username password).2)
      ∧ ∃ pair : TokenPair,
          (login verifyF secret now accessExp refreshExp
            (db ++ [⟨newId, username, email, hashF password, createdAt, avatar, none,
              some "user"⟩]) username password).1 = .ok pair
          ∧ pair.access_token = create_access_token username now accessExp secret
          ∧ pair.refresh_token = create_refresh_token username now refreshExp secret
          ∧ pair.token_type = "bearer") := by
  constructor
  · intro h
    cases he : get_user_by_email db email with
    | some w =>
        unfold signup
        rw [he]
    | none =>
        cases hn : get_user_by_username db username with
        | some w =>
            unfold signup
            rw [he]
            dsimp only
            rw [hn]
        | none =>
            exfalso
            obtain ⟨u, hu, hor⟩ := h
            unfold get_user_by_email at he
            unfold get_user_by_username at hn
            rw [List.find?_eq_none] at he hn
            rcases hor with h1 | h2
            · exact he u hu (by simp [h1])
            · exact hn u hu (by simp [h2])
  · intro hfresh hcontract
    have he : get_user_by_email db email = none := by
      unfold get_user_by_email
      rw [List.find?_eq_none]
      intro u hu
      simpa using (hfresh u hu).1
    have hn : get_user_by_username db username = none := by
      unfold get_user_by_username
      rw [List.find?_eq_none]
      intro u hu
      simpa using (hfresh u hu).2
    have hn2 : get_user_by_username
        (db ++ [⟨newId, username, email, hashF password, createdAt, avatar, none,
          some "user"⟩]) username =
        some ⟨newId, username, email, hashF password, createdAt, avatar, none,
          some "user"⟩ := by
      unfold get_user_by_username
      rw [find?_append_of_none _ _ _ hn]
      rw [List.find?_cons_of_pos _ (by simp)]
    have hlogin : (login verifyF secret now accessExp refreshExp
        (db ++ [⟨newId, username, email, hashF password, createdAt, avatar, none,
          some "user"⟩]) username password).1 =
        .ok ⟨create_access_token username now accessExp secret,
             create_refresh_token username now refreshExp secret, "bearer"⟩ := by
      unfold login
      rw [hn2]
      dsimp only
      rw [if_pos hcontract]
    constructor
    · unfold signup
      rw [he]
      dsimp only
      rw [hn]
    · exact ⟨⟨create_access_token username now accessExp secret,
              create_refresh_token username now refreshExp secret, "bearer"⟩,
             hlogin, rfl, rfl, rfl⟩

/-- Witness for C10 at a concrete state: registering with alice's
existing email is rejected with 409 and no effects. -/
theorem signup_conflict_or_login_witness :
    (∃ u ∈ sampleDb, u.email = "alice@example.com" ∨ u.username = "newbie")
    ∧ signup sampleVerify sampleHash sampleSecret 0 3600 604800 sampleDb 3
        "2024-02-01T00:00:00" none "newbie" "alice@example.com" "pw-new" =
        (.conflict409, []) :=
  ⟨⟨alice, by decide, Or.inl (by decide)⟩,
   (signup_conflict_or_login sampleVerify sampleHash sampleSecret 0 3600 604800
     sampleDb 3 "2024-02-01T00:00:00" none "newbie" "alice@example.com" "pw-new").1
     ⟨alice, by decide, Or.inl (by decide)⟩⟩
